import Mathlib

/-!
Verification development for the NFL-viewer backend service
(src/backend/python/service.py), a shallow embedding of its pure
data-shaping and resilience logic in Lean 4, with theorems settling the
specification claims about the classifier, source ranking, health-probe
budgeting, caches, the player-index pipeline and the HTTP response
envelopes.
-/

namespace NFLViewer

/-! ## String helpers

The Python code works with lowercase substring containment tests
(`keyword in text`).  We embed strings as their character lists and model
Python `str.lower` on ASCII (the only characters appearing in the
configured keywords and the inputs of interest). -/

/-- ASCII lowercasing of one character, as `str.lower` acts on A-Z. -/
def lowerChar (c : Char) : Char :=
  if 'A' ≤ c ∧ c ≤ 'Z' then Char.ofNat (c.toNat + 32) else c

/-- Python `s.lower()` on the embedded character list. -/
def pyLower (s : String) : List Char :=
  s.data.map lowerChar

/-- Does the first list occur as a leading segment of the second? -/
def leadsList : List Char → List Char → Bool
  | [], _ => true
  | _ :: _, [] => false
  | a :: as, b :: bs => a == b && leadsList as bs

/-- Python `needle in hay` substring containment on character lists. -/
def containsSub (hay needle : List Char) : Bool :=
  match hay with
  | [] => leadsList needle []
  | _ :: rest => leadsList needle hay || containsSub rest needle

/-! ## League classifier (service.py, is_league_match, lines 240-267) -/

/-- One league entry of `LEAGUE_CONFIGS`. -/
structure LeagueConfig where
  categories : List String
  brand_keywords : List String
  team_keywords : List String
  exclude_keywords : List String

/-- The raw match record fields consulted by the classifier. -/
structure RawMatch where
  id : String
  title : String
  category : String

def nflConfig : LeagueConfig where
  categories := ["american-football", "nfl", "football-am"]
  brand_keywords := ["nfl", "redzone", "red zone", "nfl network"]
  team_keywords :=
    ["bills", "dolphins", "patriots", "jets",
     "ravens", "bengals", "browns", "steelers",
     "texans", "colts", "jaguars", "titans",
     "broncos", "chiefs", "raiders", "chargers",
     "cowboys", "giants", "eagles", "commanders",
     "bears", "lions", "packers", "vikings",
     "falcons", "panthers", "saints", "buccaneers",
     "cardinals", "rams", "49ers", "seahawks"]
  exclude_keywords :=
    ["ncaaf", "ncaa", "college", "cfb", "fbs", "fcs",
     "xfl", "usfl", "cfl", "arena",
     "nhl", "hockey", "ice hockey"]

def nbaConfig : LeagueConfig where
  categories := ["basketball", "nba"]
  brand_keywords := ["nba", "nba tv", "league pass", "summer league", "all-star", "all star"]
  team_keywords :=
    ["hawks", "celtics", "nets", "hornets",
     "bulls", "cavaliers", "mavericks", "nuggets",
     "pistons", "warriors", "rockets", "pacers",
     "clippers", "lakers", "grizzlies", "heat",
     "bucks", "timberwolves", "pelicans", "knicks",
     "thunder", "magic", "76ers", "sixers",
     "suns", "trail blazers", "blazers", "kings",
     "spurs", "raptors", "jazz", "wizards"]
  exclude_keywords :=
    ["wnba", "ncaab", "ncaa", "college", "g league", "gleague",
     "fiba", "euroleague",
     "nhl", "hockey", "ice hockey"]

def mlbConfig : LeagueConfig where
  categories := ["baseball", "mlb"]
  brand_keywords := ["mlb", "mlb network", "world series", "spring training", "all-star"]
  team_keywords :=
    ["orioles", "red sox", "yankees", "rays", "blue jays",
     "white sox", "guardians", "tigers", "royals", "twins",
     "astros", "angels", "athletics", "mariners", "rangers",
     "braves", "marlins", "mets", "phillies", "nationals",
     "cubs", "reds", "brewers", "pirates", "cardinals",
     "diamondbacks", "rockies", "dodgers", "padres", "giants"]
  exclude_keywords :=
    ["college", "ncaa", "minor league", "triple-a", "double-a",
     "kbo", "npb"]

def nhlConfig : LeagueConfig where
  categories := ["hockey", "ice-hockey", "nhl"]
  brand_keywords := ["nhl", "nhl network", "hockey night", "stanley cup", "winter classic"]
  team_keywords :=
    ["ducks", "bruins", "sabres", "flames",
     "hurricanes", "blackhawks", "avalanche", "blue jackets",
     "stars", "red wings", "oilers", "panthers",
     "kings", "wild", "canadiens", "predators",
     "devils", "islanders", "rangers", "senators",
     "flyers", "penguins", "sharks", "kraken",
     "blues", "lightning", "maple leafs", "leafs",
     "canucks", "golden knights", "capitals", "jets",
     "utah", "coyotes"]
  exclude_keywords :=
    ["ahl", "khl", "ncaa", "college", "whl", "ohl", "qmjhl",
     "iihf", "world juniors", "olympics"]

/-- `GLOBAL_EXCLUDED_KEYWORDS` from the source (empty). -/
def GLOBAL_EXCLUDED_KEYWORDS : List String := []

/-- `LEAGUE_CONFIGS.get(league)`. -/
def LEAGUE_CONFIGS (league : String) : Option LeagueConfig :=
  if league = "nfl" then some nflConfig
  else if league = "nba" then some nbaConfig
  else if league = "mlb" then some mlbConfig
  else if league = "nhl" then some nhlConfig
  else none

/-- Count of team nicknames occurring in the search text
(`sum(1 for nickname in config['team_keywords'] if nickname in search_text)`). -/
def nicknameHits (config : LeagueConfig) (search_text : List Char) : Nat :=
  config.team_keywords.countP (fun nickname => containsSub search_text nickname.data)

/-- The body of `is_league_match` once the config has been resolved,
following the Python statement order. -/
def is_league_match_config (m : RawMatch) (league : String) (config : LeagueConfig) : Bool :=
  let category := pyLower m.category
  let search_text := pyLower (m.title ++ " " ++ m.id)
  if category ≠ [] && !(config.categories.any (fun cat => containsSub category cat.data)) then
    false
  else if GLOBAL_EXCLUDED_KEYWORDS.any (fun keyword => containsSub search_text keyword.data) then
    false
  else if config.exclude_keywords.any (fun keyword => containsSub search_text keyword.data) then
    false
  else if config.brand_keywords.any (fun keyword => containsSub search_text keyword.data) then
    true
  else if nicknameHits config search_text ≥ 2 then
    true
  else if category ≠ [] && containsSub category league.data
      && nicknameHits config search_text ≥ 1 then
    true
  else
    false

/-- `is_league_match(match, league)` from service.py lines 240-267. -/
def is_league_match (m : RawMatch) (league : String) : Bool :=
  match LEAGUE_CONFIGS league with
  | none => false
  | some config => is_league_match_config m league config

/-- The classifier as the specification words it: a first-match-wins rule
cascade where the exclude step scans the global and league-specific
keywords as one combined list, and rule 5 is stated without the redundant
non-empty-category guard. -/
def classify_spec (m : RawMatch) (league : String) (config : LeagueConfig) : Bool :=
  let category := pyLower m.category
  let text := pyLower (m.title ++ " " ++ m.id)
  if category ≠ [] && !(config.categories.any (fun cat => containsSub category cat.data)) then
    false
  else if (GLOBAL_EXCLUDED_KEYWORDS ++ config.exclude_keywords).any
      (fun keyword => containsSub text keyword.data) then
    false
  else if config.brand_keywords.any (fun keyword => containsSub text keyword.data) then
    true
  else if nicknameHits config text ≥ 2 then
    true
  else if containsSub category league.data && nicknameHits config text ≥ 1 then
    true
  else
    false

theorem leadsList_nil_of_ne_nil (needle : List Char) (h : needle ≠ []) :
    leadsList needle [] = false := by
  cases needle with
  | nil => exact absurd rfl h
  | cons a as => rfl

theorem containsSub_nil_needle_ne_nil (needle : List Char) (h : needle ≠ []) :
    containsSub [] needle = false := by
  simp [containsSub, leadsList_nil_of_ne_nil needle h]

theorem is_league_match_config_eq_spec (m : RawMatch) (league : String)
    (config : LeagueConfig) (h : league.data ≠ []) :
    is_league_match_config m league config = classify_spec m league config := by
  unfold is_league_match_config classify_spec
  simp only [GLOBAL_EXCLUDED_KEYWORDS, List.any_nil, List.nil_append, Bool.false_eq_true,
    if_false]
  by_cases hc : pyLower m.category = []
  · simp [hc, containsSub_nil_needle_ne_nil league.data h]
  · simp [hc]

/-- C4: the classifier follows the fixed short-circuit rule order of the
specification.  For every league with a configured entry, the code-side
classifier coincides with the rule cascade written from the
specification, and the concrete NCAA example is rejected through the
exclude step even though two NBA nicknames are present. -/
theorem C4_classifier_order :
    (∀ (m : RawMatch) (league : String) (config : LeagueConfig),
        LEAGUE_CONFIGS league = some config →
        is_league_match m league = classify_spec m league config) ∧
    is_league_match
      { id := "x", title := "NCAA Tournament: Lakers vs Celtics", category := "basketball" }
      "nba" = false ∧
    nicknameHits nbaConfig
      (pyLower ("NCAA Tournament: Lakers vs Celtics" ++ " " ++ "x")) ≥ 2 := by
  refine ⟨?_, by decide, by decide⟩
  intro m league config hcfg
  unfold LEAGUE_CONFIGS at hcfg
  split_ifs at hcfg with h1 h2 h3 h4
  · cases hcfg
    subst h1
    exact is_league_match_config_eq_spec m "nfl" nflConfig (by decide)
  · cases hcfg
    subst h2
    exact is_league_match_config_eq_spec m "nba" nbaConfig (by decide)
  · cases hcfg
    subst h3
    exact is_league_match_config_eq_spec m "mlb" mlbConfig (by decide)
  · cases hcfg
    subst h4
    exact is_league_match_config_eq_spec m "nhl" nhlConfig (by decide)

/-- Closed witness for C4: the universally quantified part applied to the
concrete NCAA example over the NBA configuration. -/
theorem C4_classifier_order_witness :
    is_league_match
      { id := "x", title := "NCAA Tournament: Lakers vs Celtics", category := "basketball" }
      "nba" =
    classify_spec
      { id := "x", title := "NCAA Tournament: Lakers vs Celtics", category := "basketball" }
      "nba" nbaConfig :=
  C4_classifier_order.1
    { id := "x", title := "NCAA Tournament: Lakers vs Celtics", category := "basketball" }
    "nba" nbaConfig rfl

/-! ## Health records, probe budgeting and source ranking
(service.py: HealthCache, annotate_sources lines 1941-1973,
sort_sources lines 1976-1993) -/

/-- The health payload produced by `build_health_payload` / attached
synthetically by `annotate_sources`. -/
structure HealthRec where
  status : String
  httpStatus : Option Int
  latencyMs : Option Int
  checkedAt : Option String
  error : Option String
deriving DecidableEq, Repr

/-- A raw stream-source entry `{source, id}` as consumed by
`annotate_sources`. -/
structure SSource where
  source : String
  id : String
deriving DecidableEq, Repr

/-- An annotated source: the raw fields plus the optional health payload
attached when `include_health` is set. -/
structure AnnSource where
  source : String
  id : String
  health : Option HealthRec
deriving DecidableEq, Repr

/-- `SOURCE_PREFERENCE` from the source configuration. -/
def SOURCE_PREFERENCE : List String :=
  ["admin", "delta", "charlie", "echo", "golf", "alpha", "bravo"]

/-- The cache key `f"{source_name}:{source_id}:1"` used by
`annotate_sources`. -/
def health_key (s : SSource) : String :=
  s.source ++ ":" ++ s.id ++ ":1"

/-- The synthetic record attached when the health-check budget is
exhausted. -/
def budget_exhausted_rec : HealthRec :=
  { status := "unknown", httpStatus := none, latencyMs := none,
    checkedAt := none, error := some "health_check_budget_exhausted" }

/-- Association-list lookup standing for the (TTL-filtered) health cache:
the cache argument holds exactly the non-expired records. -/
def lookupAssoc (cache : List (String × HealthRec)) (key : String) : Option HealthRec :=
  match cache with
  | [] => none
  | (k, v) :: rest => if k = key then some v else lookupAssoc rest key

/-- Shallow embedding of `annotate_sources`.  The live network probe
`check_source_health` is abstracted as the oracle `probe`; the mutable
`HEALTH_CACHE` and the request budget are threaded explicitly and
returned alongside the annotated list.  The budget is an `Int`, probed
only when strictly positive and decremented only on a live probe, as in
the source. -/
def annotate_sources (probe : String → String → HealthRec) (include_health : Bool) :
    List SSource → List (String × HealthRec) → Int →
    List AnnSource × List (String × HealthRec) × Int
  | [], cache, budget => ([], cache, budget)
  | src :: rest, cache, budget =>
    if include_health then
      let key := health_key src
      match lookupAssoc cache key with
      | some cached =>
        let (anns, cache₁, budget₁) := annotate_sources probe include_health rest cache budget
        ({ source := src.source, id := src.id, health := some cached } :: anns, cache₁, budget₁)
      | none =>
        if budget > 0 then
          let fresh := probe src.source src.id
          let (anns, cache₁, budget₁) :=
            annotate_sources probe include_health rest ((key, fresh) :: cache) (budget - 1)
          ({ source := src.source, id := src.id, health := some fresh } :: anns, cache₁, budget₁)
        else
          let (anns, cache₁, budget₁) := annotate_sources probe include_health rest cache budget
          ({ source := src.source, id := src.id, health := some budget_exhausted_rec } :: anns,
            cache₁, budget₁)
    else
      let (anns, cache₁, budget₁) := annotate_sources probe include_health rest cache budget
      ({ source := src.source, id := src.id, health := none } :: anns, cache₁, budget₁)

/-- The annotation a source receives from a live probe. -/
def live_annotated (probe : String → String → HealthRec) (s : SSource) : AnnSource :=
  { source := s.source, id := s.id, health := some (probe s.source s.id) }

/-- The annotation a source receives once the budget is exhausted. -/
def synth_annotated (s : SSource) : AnnSource :=
  { source := s.source, id := s.id, health := some budget_exhausted_rec }

/-- A sample probe result used in concrete witnesses, carrying the probed
name and id in its error field so distinct probes are distinguishable. -/
def probeRec (name id : String) : HealthRec :=
  { status := "up", httpStatus := some 200, latencyMs := some 5, checkedAt := none,
    error := some (name ++ id) }

/-- A sample healthy record for concrete ranking examples. -/
def upRec : HealthRec :=
  { status := "up", httpStatus := some 200, latencyMs := some 10, checkedAt := none,
    error := none }

/-- A sample down record for concrete ranking examples. -/
def downRec : HealthRec :=
  { status := "down", httpStatus := some 500, latencyMs := some 10, checkedAt := none,
    error := none }

theorem lookupAssoc_cons_ne (k : String) (v : HealthRec)
    (cache : List (String × HealthRec)) (key : String) (h : k ≠ key) :
    lookupAssoc ((k, v) :: cache) key = lookupAssoc cache key := by
  simp [lookupAssoc, h]

theorem annotate_sources_budget_spec (probe : String → String → HealthRec) :
    ∀ (sources : List SSource) (cache : List (String × HealthRec)) (budget : Int),
      (∀ s ∈ sources, lookupAssoc cache (health_key s) = none) →
      (sources.map health_key).Nodup →
      annotate_sources probe true sources cache budget =
        ((sources.take budget.toNat).map (live_annotated probe) ++
           (sources.drop budget.toNat).map synth_annotated,
         ((sources.take budget.toNat).reverse.map
             (fun s => (health_key s, probe s.source s.id))) ++ cache,
         budget - (min budget.toNat sources.length : Nat))
  | [], cache, budget, _, _ => by
    simp [annotate_sources]
  | src :: rest, cache, budget, hmiss, hnodup => by
    have hsrc : lookupAssoc cache (health_key src) = none :=
      hmiss src (List.mem_cons_self src rest)
    have hn := List.nodup_cons.mp
      (show (health_key src :: rest.map health_key).Nodup from hnodup)
    by_cases hpos : budget > 0
    · have htoNat : budget.toNat = (budget - 1).toNat + 1 := by omega
      have hrest :
          annotate_sources probe true rest ((health_key src, probe src.source src.id) :: cache)
              (budget - 1) =
            ((rest.take (budget - 1).toNat).map (live_annotated probe) ++
               (rest.drop (budget - 1).toNat).map synth_annotated,
             ((rest.take (budget - 1).toNat).reverse.map
                 (fun s => (health_key s, probe s.source s.id))) ++
               ((health_key src, probe src.source src.id) :: cache),
             (budget - 1) - (min (budget - 1).toNat rest.length : Nat)) := by
        apply annotate_sources_budget_spec probe rest _ (budget - 1)
        · intro s hs
          have hne : health_key src ≠ health_key s := by
            intro he
            exact hn.1 (he ▸ List.mem_map_of_mem health_key hs)
          rw [lookupAssoc_cons_ne _ _ _ _ hne]
          exact hmiss s (List.mem_cons_of_mem src hs)
        · exact hn.2
      simp only [annotate_sources, hsrc, if_pos hpos, hrest]
      rw [htoNat]
      simp only [List.take_succ_cons, List.drop_succ_cons, List.map_cons, List.length_cons,
        List.reverse_cons, List.map_append, List.map_nil, if_true, Prod.mk.injEq,
        live_annotated, List.append_assoc, List.cons_append, List.nil_append,
        eq_self_iff_true, true_and]
      omega
    · have hz : budget.toNat = 0 := by omega
      have hrest := annotate_sources_budget_spec probe rest cache budget
        (fun s hs => hmiss s (List.mem_cons_of_mem src hs)) hn.2
      simp only [annotate_sources, hsrc, if_neg hpos, hrest, hz]
      simp only [List.take_zero, List.drop_zero, List.map_nil, List.nil_append,
        List.map_cons, List.reverse_nil, List.length_cons, if_true, Prod.mk.injEq,
        synth_annotated, eq_self_iff_true, true_and]
      omega

/-- The claim as stated is false on the code: a source annotated beyond
the probe budget carries the error string
health_check_budget_exhausted, not budget_exhausted. -/
theorem C6_budget_error_string_counterexample :
    (annotate_sources (fun _ _ => budget_exhausted_rec) true
        [{ source := "alpha", id := "s1" }] [] 0).1 =
      [{ source := "alpha", id := "s1", health := some budget_exhausted_rec }] ∧
    budget_exhausted_rec.status = "unknown" ∧
    budget_exhausted_rec.error = some "health_check_budget_exhausted" ∧
    "health_check_budget_exhausted" ≠ "budget_exhausted" := by
  refine ⟨rfl, rfl, rfl, by decide⟩

/-- C6 (amended): when none of the sources has a cached health record and
the source keys are distinct, exactly `min budget n` sources, taken in
input order, receive live probes whose results are cached; every
remaining source is annotated with the synthetic record with status
unknown and error health_check_budget_exhausted; the budget is
decremented exactly once per live probe and, starting non-negative, never
becomes negative. -/
theorem C6_budget_exhaustion (probe : String → String → HealthRec)
    (sources : List SSource) (cache : List (String × HealthRec)) (budget : Int)
    (hmiss : ∀ s ∈ sources, lookupAssoc cache (health_key s) = none)
    (hnodup : (sources.map health_key).Nodup) :
    annotate_sources probe true sources cache budget =
      ((sources.take budget.toNat).map (live_annotated probe) ++
         (sources.drop budget.toNat).map synth_annotated,
       ((sources.take budget.toNat).reverse.map
           (fun s => (health_key s, probe s.source s.id))) ++ cache,
       budget - (min budget.toNat sources.length : Nat)) ∧
    (0 ≤ budget →
      0 ≤ budget - (min budget.toNat sources.length : Nat)) := by
  refine ⟨annotate_sources_budget_spec probe sources cache budget hmiss hnodup, ?_⟩
  intro h0
  omega

/-- Witness for C6: five distinct sources under a budget of two yield
exactly two live probes (in input order) and three budget-exhausted
annotations, with the final budget equal to zero. -/
theorem C6_budget_exhaustion_witness :
    annotate_sources probeRec true
      [{ source := "s1", id := "a" }, { source := "s2", id := "b" },
       { source := "s3", id := "c" }, { source := "s4", id := "d" },
       { source := "s5", id := "e" }] [] 2 =
      ([{ source := "s1", id := "a", health := some (probeRec "s1" "a") },
        { source := "s2", id := "b", health := some (probeRec "s2" "b") },
        { source := "s3", id := "c", health := some budget_exhausted_rec },
        { source := "s4", id := "d", health := some budget_exhausted_rec },
        { source := "s5", id := "e", health := some budget_exhausted_rec }],
       [("s2:b:1", probeRec "s2" "b"), ("s1:a:1", probeRec "s1" "a")],
       0) := by
  have h := (C6_budget_exhaustion probeRec
    [{ source := "s1", id := "a" }, { source := "s2", id := "b" },
     { source := "s3", id := "c" }, { source := "s4", id := "d" },
     { source := "s5", id := "e" }] [] 2
    (by intro s hs; rfl) (by decide)).1
  simpa [live_annotated, synth_annotated, health_key] using h

/-- Health score used by `sort_sources.source_rank`: up maps to 0,
unknown to 1, down to 2 and anything else (including a missing health
payload) to the dictionary default 1. -/
def health_score (a : AnnSource) : Nat :=
  match a.health with
  | none => 1
  | some h =>
    if h.status = "up" then 0
    else if h.status = "unknown" then 1
    else if h.status = "down" then 2
    else 1

/-- Preference index: position of the source name in `SOURCE_PREFERENCE`,
with unlisted names mapped to the list length (the ValueError branch). -/
def pref_index (a : AnnSource) : Nat :=
  SOURCE_PREFERENCE.findIdx (fun n => n == a.source)

/-- The sort key `(health_score, pref_index)` of `sort_sources`. -/
def source_rank (a : AnnSource) : Nat × Nat :=
  (health_score a, pref_index a)

/-- Lexicographic comparison of the sort keys, as Python compares the
tuples returned by `source_rank`. -/
def source_le (a b : AnnSource) : Bool :=
  decide ((source_rank a).1 < (source_rank b).1) ||
    (decide ((source_rank a).1 = (source_rank b).1) &&
      decide ((source_rank a).2 ≤ (source_rank b).2))

/-- `sort_sources`: Python sorted is a stable merge sort ascending by the
key, embedded with the stable `List.mergeSort`. -/
def sort_sources (l : List AnnSource) : List AnnSource :=
  l.mergeSort source_le

theorem source_le_trans (a b c : AnnSource) :
    source_le a b → source_le b c → source_le a c := by
  simp only [source_le, Bool.or_eq_true, Bool.and_eq_true, decide_eq_true_eq]
  omega

theorem source_le_total (a b : AnnSource) :
    source_le a b || source_le b a := by
  simp only [source_le, Bool.or_eq_true, Bool.and_eq_true, decide_eq_true_eq]
  omega

/-- C5: ranking sources is a stable ascending sort by the pair
(healthScore, preferenceIndex): the output is pairwise ordered by the
lexicographic key, it is a permutation of the input, two entries with
equal keys keep their input order, and in the concrete example a
source with status up precedes a source with status down even though the
latter comes first in the preference list. -/
theorem C5_rank_stable_sort :
    (∀ l : List AnnSource,
        (sort_sources l).Pairwise (fun a b => source_le a b = true)) ∧
    (∀ l : List AnnSource, (sort_sources l).Perm l) ∧
    (∀ (l : List AnnSource) (a b : AnnSource),
        [a, b].Sublist l → source_rank a = source_rank b →
        [a, b].Sublist (sort_sources l)) ∧
    sort_sources
      [{ source := "bravo", id := "s1", health := some upRec },
       { source := "admin", id := "s2", health := some downRec }] =
      [{ source := "bravo", id := "s1", health := some upRec },
       { source := "admin", id := "s2", health := some downRec }] := by
  refine ⟨?_, ?_, ?_, ?_⟩
  · intro l
    exact List.sorted_mergeSort source_le_trans source_le_total l
  · intro l
    exact List.mergeSort_perm l source_le
  · intro l a b hsub hk
    refine List.sublist_mergeSort source_le_trans source_le_total ?_ hsub
    refine List.pairwise_pair.mpr ?_
    simp only [source_le, hk]
    simp
  · exact List.mergeSort_of_sorted (by decide)

/-- Witness for C5: the stability clause applied to a concrete
two-element list of equal-ranked sources. -/
theorem C5_rank_stable_sort_witness :
    [({ source := "zulu", id := "a", health := none } : AnnSource),
     { source := "yank", id := "b", health := none }].Sublist
      (sort_sources [{ source := "zulu", id := "a", health := none },
        { source := "yank", id := "b", health := none }]) :=
  C5_rank_stable_sort.2.2.1
    [{ source := "zulu", id := "a", health := none },
     { source := "yank", id := "b", health := none }]
    { source := "zulu", id := "a", health := none }
    { source := "yank", id := "b", health := none }
    (List.Sublist.refl _) (by decide)

/-! ## Match cache with stale-on-failure fallback
(service.py: GameCache, build_match_cache lines 2063-2085) -/

/-- The `GameCache.data` dictionary.  The live and all lists are optional
because a persisted snapshot may overwrite them with null. -/
structure GameData (α : Type) where
  live : Option (List α)
  all : Option (List α)
  last_fetch : Int
  last_error : Option String
  last_source : Option String
deriving DecidableEq, Repr

/-- Shallow embedding of `build_match_cache`.  The two `fetch_matches`
calls are abstracted as one fallible `fetch` result delivering the live
list, the all list and the winning base; time is the explicit `now`, and
`ttl` and `staleTtl` stand for CACHE_TTL_SEC and CACHE_STALE_SEC.  The
result is the updated cache state paired with the returned tuple
(snapshot, cacheAge, cacheOk, stale); the caller maps cacheOk = false to
the 502 upstream_unavailable response. -/
def build_match_cache {α : Type} (ttl staleTtl now : Int) (force : Bool)
    (fetch : Except String (List α × List α × Option String))
    (st : GameData α) : GameData α × GameData α × Int × Bool × Bool :=
  let snapshot := st
  let cache_age := now - st.last_fetch
  let cache_valid := decide (cache_age < ttl)
  if force || !cache_valid then
    match fetch with
    | .ok (live_matches, all_matches, source) =>
      let st₁ : GameData α :=
        { live := some live_matches, all := some all_matches, last_fetch := now,
          last_error := none, last_source := source }
      (st₁, st₁, 0, true, false)
    | .error e =>
      let st₁ := { st with last_error := some e }
      if cache_age ≤ staleTtl ∧ snapshot.live.isSome then
        (st₁, snapshot, cache_age, true, true)
      else
        (st₁, snapshot, cache_age, false, false)
  else
    (st, snapshot, cache_age, true, false)

/-- C1: on a refresh triggered by an expired entry whose upstream fetch
fails, a prior value within the stale window is served with stale = true
and the error recorded in the cache state but not surfaced as a failure;
beyond the stale window the failure is surfaced instead (cacheOk = false,
which the handler turns into the 502 upstream_unavailable error). -/
theorem C1_stale_on_failure {α : Type} (ttl staleTtl now : Int) (e : String)
    (st : GameData α) (hexp : ¬ (now - st.last_fetch < ttl)) :
    (st.live.isSome → now - st.last_fetch ≤ staleTtl →
      build_match_cache ttl staleTtl now false (.error e) st =
        ({ st with last_error := some e }, st, now - st.last_fetch, true, true)) ∧
    (staleTtl < now - st.last_fetch →
      build_match_cache ttl staleTtl now false (.error e) st =
        ({ st with last_error := some e }, st, now - st.last_fetch, false, false)) := by
  constructor
  · intro hlive hstale
    simp [build_match_cache, hexp, hstale, hlive]
  · intro hbeyond
    have : ¬ (now - st.last_fetch ≤ staleTtl ∧ st.live.isSome) := by
      intro h
      exact absurd h.1 (by omega)
    simp [build_match_cache, hexp, this]
    intro h
    omega

/-- Witness for C1: with TTL = 30, a value captured 45 seconds ago and
staleTtl = 600 a failed refresh serves the old value with stale = true;
the same state with staleTtl = 40 yields cacheOk = false. -/
theorem C1_stale_on_failure_witness :
    (build_match_cache 30 600 1000 false (.error "boom")
        ({ live := some ["m1"], all := some [], last_fetch := 955,
           last_error := none, last_source := some "base" } : GameData String) =
      ({ live := some ["m1"], all := some [], last_fetch := 955,
         last_error := some "boom", last_source := some "base" },
       { live := some ["m1"], all := some [], last_fetch := 955,
         last_error := none, last_source := some "base" }, 45, true, true)) ∧
    (build_match_cache 30 40 1000 false (.error "boom")
        ({ live := some ["m1"], all := some [], last_fetch := 955,
           last_error := none, last_source := some "base" } : GameData String) =
      ({ live := some ["m1"], all := some [], last_fetch := 955,
         last_error := some "boom", last_source := some "base" },
       { live := some ["m1"], all := some [], last_fetch := 955,
         last_error := none, last_source := some "base" }, 45, false, false)) := by
  constructor
  · exact (C1_stale_on_failure 30 600 1000 "boom"
      { live := some ["m1"], all := some [], last_fetch := 955,
        last_error := none, last_source := some "base" } (by decide)).1
      (by decide) (by decide)
  · exact (C1_stale_on_failure 30 40 1000 "boom"
      { live := some ["m1"], all := some [], last_fetch := 955,
        last_error := none, last_source := some "base" } (by decide)).2
      (by decide)

/-! ## Derived match flags (service.py: parse_match lines 1996-2060) -/

/-- Default LIVE_MAX_AGE_SEC. -/
def LIVE_MAX_AGE_SEC : Int := 14400

/-- Default ENDED_GRACE_SEC. -/
def ENDED_GRACE_SEC : Int := 21600

/-- The three derived flags computed by `parse_match` from the match
timestamp and the current wall clock, with the live and ended cutoffs in
milliseconds passed explicitly. -/
def parse_match_flags (is_live : Bool) (timestamp now live_cutoff_ms ended_cutoff_ms : Int) :
    Bool × Bool × Bool :=
  let is_live_now := is_live && decide (now - timestamp ≤ live_cutoff_ms)
  let is_upcoming := !is_live_now && decide (timestamp > now)
  let is_ended := !is_live_now && decide (timestamp ≤ now - ended_cutoff_ms)
  (is_live_now, is_upcoming, is_ended)

/-- C10: with a non-negative ended-grace cutoff, the three flags are
mutually exclusive: isUpcoming holds exactly for a not-live strictly
future timestamp, isEnded exactly for a not-live timestamp at least the
grace duration in the past, and no two flags are ever simultaneously
true. -/
theorem C10_flags_mutually_exclusive (is_live : Bool)
    (timestamp now live_cutoff_ms ended_cutoff_ms : Int)
    (hg : 0 ≤ ended_cutoff_ms) :
    ((parse_match_flags is_live timestamp now live_cutoff_ms ended_cutoff_ms).2.1 = true ↔
      (parse_match_flags is_live timestamp now live_cutoff_ms ended_cutoff_ms).1 = false ∧
        now < timestamp) ∧
    ((parse_match_flags is_live timestamp now live_cutoff_ms ended_cutoff_ms).2.2 = true ↔
      (parse_match_flags is_live timestamp now live_cutoff_ms ended_cutoff_ms).1 = false ∧
        timestamp ≤ now - ended_cutoff_ms) ∧
    ¬ ((parse_match_flags is_live timestamp now live_cutoff_ms ended_cutoff_ms).1 = true ∧
        (parse_match_flags is_live timestamp now live_cutoff_ms ended_cutoff_ms).2.1 = true) ∧
    ¬ ((parse_match_flags is_live timestamp now live_cutoff_ms ended_cutoff_ms).1 = true ∧
        (parse_match_flags is_live timestamp now live_cutoff_ms ended_cutoff_ms).2.2 = true) ∧
    ¬ ((parse_match_flags is_live timestamp now live_cutoff_ms ended_cutoff_ms).2.1 = true ∧
        (parse_match_flags is_live timestamp now live_cutoff_ms ended_cutoff_ms).2.2 = true) := by
  simp only [parse_match_flags]
  cases hb : (is_live && decide (now - timestamp ≤ live_cutoff_ms)) with
  | true => simp
  | false =>
    simp only [hb]
    simp
    omega

/-- Witness for C10 at the default cutoffs: a non-live match whose
timestamp equals the clock has all three flags false, and the
mutual-exclusion clauses hold there. -/
theorem C10_flags_mutually_exclusive_witness :
    (¬ ((parse_match_flags false 500 500 (LIVE_MAX_AGE_SEC * 1000)
          (ENDED_GRACE_SEC * 1000)).2.1 = true ∧
        (parse_match_flags false 500 500 (LIVE_MAX_AGE_SEC * 1000)
          (ENDED_GRACE_SEC * 1000)).2.2 = true)) ∧
    parse_match_flags false 500 500 (LIVE_MAX_AGE_SEC * 1000) (ENDED_GRACE_SEC * 1000) =
      (false, false, false) :=
  ⟨(C10_flags_mutually_exclusive false 500 500 (LIVE_MAX_AGE_SEC * 1000)
      (ENDED_GRACE_SEC * 1000) (by decide)).2.2.2.2, by decide⟩

/-! ## Player-index season resolution
(service.py: resolve_player_index lines 1329-1359) -/

/-- Errors raised by `build_player_index`: an HTTP error carrying a
status code, or any other exception. -/
inductive FetchErr where
  | http (code : Int) (msg : String)
  | generic (msg : String)
deriving DecidableEq, Repr

/-- The part of the built player index the resolution loop inspects. -/
structure PIndex where
  season : String
  athletes : List String
deriving DecidableEq, Repr

/-- Shallow embedding of the candidate loop of `resolve_player_index`:
walks the season candidates in listed order, carrying the last recorded
error.  A successful build with a non-empty athlete list is returned and
cached; a successful build with an empty athlete list falls through to
the next candidate without touching the last error; an HTTPError is
recorded and skipped only when its code is 404 and the season is
current, otherwise re-raised; any other exception is recorded, logged and
skipped; an exhausted candidate list re-raises the last recorded error
when one exists. -/
def resolve_player_index_loop (build : String → Except FetchErr PIndex)
    (season_is_current : Bool) :
    List String → Option FetchErr → Except FetchErr (Option PIndex)
  | [], last =>
    match last with
    | some e => .error e
    | none => .ok none
  | c :: rest, last =>
    match build c with
    | .ok idx =>
      if idx.athletes ≠ [] then .ok (some idx)
      else resolve_player_index_loop build season_is_current rest last
    | .error (.http code msg) =>
      if code = 404 ∧ season_is_current then
        resolve_player_index_loop build season_is_current rest (some (.http code msg))
      else .error (.http code msg)
    | .error (.generic msg) =>
      resolve_player_index_loop build season_is_current rest (some (.generic msg))

/-- A concrete build oracle whose first candidate fails with a non-HTTP
error and whose second candidate succeeds. -/
def buildCex : String → Except FetchErr PIndex := fun c =>
  if c = "2025" then .error (.generic "connection reset")
  else if c = "2024" then .ok { season := "2024", athletes := ["a1"] }
  else .error (.http 404 "not found")

/-- The claim as stated is false on the code: an error other than a 404
on the first candidate is not fatal — the generic failure on candidate
2025 is swallowed and the resolution succeeds on candidate 2024 instead
of propagating. -/
theorem C7_nonhttp_error_not_fatal_counterexample :
    buildCex "2025" = .error (.generic "connection reset") ∧
    resolve_player_index_loop buildCex true ["2025", "2024"] none =
      .ok (some { season := "2024", athletes := ["a1"] }) := by
  exact ⟨rfl, rfl⟩

/-- C7 (amended): candidates are tried in listed order; a 404 HTTP error
under season current records the error and moves to the next candidate; a
non-404 HTTP error is propagated immediately; a non-HTTP error is
recorded and the next candidate tried; the first candidate building a
non-empty index short-circuits the loop; and when the candidates are
exhausted the last recorded error is propagated. -/
theorem C7_season_resolution (build : String → Except FetchErr PIndex) :
    (∀ (c : String) (rest : List String) (last : Option FetchErr) (msg : String),
        build c = .error (.http 404 msg) →
        resolve_player_index_loop build true (c :: rest) last =
          resolve_player_index_loop build true rest (some (.http 404 msg))) ∧
    (∀ (c : String) (rest : List String) (last : Option FetchErr) (code : Int) (msg : String),
        build c = .error (.http code msg) → code ≠ 404 →
        resolve_player_index_loop build true (c :: rest) last = .error (.http code msg)) ∧
    (∀ (c : String) (rest : List String) (last : Option FetchErr) (msg : String),
        build c = .error (.generic msg) →
        resolve_player_index_loop build true (c :: rest) last =
          resolve_player_index_loop build true rest (some (.generic msg))) ∧
    (∀ (c : String) (rest : List String) (last : Option FetchErr) (idx : PIndex),
        build c = .ok idx → idx.athletes ≠ [] →
        resolve_player_index_loop build true (c :: rest) last = .ok (some idx)) ∧
    (∀ e : FetchErr, resolve_player_index_loop build true [] (some e) = .error e) := by
  refine ⟨?_, ?_, ?_, ?_, ?_⟩
  · intro c rest last msg hb
    simp [resolve_player_index_loop, hb]
  · intro c rest last code msg hb hcode
    simp [resolve_player_index_loop, hb, hcode]
  · intro c rest last msg hb
    simp [resolve_player_index_loop, hb]
  · intro c rest last idx hb hne
    simp [resolve_player_index_loop, hb, hne]
  · intro e
    simp [resolve_player_index_loop]

/-- Witness for C7: the 404-skip clause and the exhaustion clause of the
amended statement applied to a concrete build oracle. -/
theorem C7_season_resolution_witness :
    resolve_player_index_loop buildCex true ["1999"] none =
      resolve_player_index_loop buildCex true [] (some (.http 404 "not found")) :=
  (C7_season_resolution buildCex).1 "1999" [] none "not found" rfl

/-! ## Core-API reference handling and the player-index build
(service.py: normalize_core_ref lines 580-586, extract_id_from_ref
lines 687-692, build_player_index lines 1275-1326) -/

/-- `normalize_core_ref`: empty references vanish, and an http scheme is
upgraded to https. -/
def normalize_core_ref (ref : String) : Option String :=
  if ref = "" then none
  else if leadsList "http://".data ref.data then
    some ("https://" ++ String.mk (ref.data.drop 7))
  else some ref

/-- Length of the maximal leading run of the letter d. -/
def dRun : List Char → Nat
  | 'd' :: rest => dRun rest + 1
  | _ => 0

/-- Attempt the regex of `extract_id_from_ref` at one position.  The
source builds the pattern with the raw f-string `/{segment}/(\\d+)`,
whose doubled backslash makes the regex engine match a literal backslash
character followed by one or more letter d characters (not a digit
class); the captured group is that greedy run of d letters. -/
def matchBsDs (pat : List Char) (s : List Char) : Option (List Char) :=
  if leadsList pat s then
    let rest := s.drop pat.length
    let n := dRun rest
    if n > 0 then some (List.replicate n 'd') else none
  else none

/-- `re.search`: scan positions left to right, returning the first
successful match of the pattern. -/
def searchBsDs (pat : List Char) : List Char → Option (List Char)
  | [] => matchBsDs pat []
  | c :: rest =>
    match matchBsDs pat (c :: rest) with
    | some g => some g
    | none => searchBsDs pat rest

/-- `extract_id_from_ref(ref, segment)`: the segments used by the
service (teams, athletes) contain no regex metacharacters, so
`re.escape` is the identity on them. -/
def extract_id_from_ref (ref segment : String) : Option String :=
  if ref = "" ∨ segment = "" then none
  else
    let pat := ('/' :: segment.data) ++ ['/', '\\']
    (searchBsDs pat ref.data).map String.mk

/-- Length of the maximal leading run of decimal digits. -/
def digitRun : List Char → List Char
  | c :: rest => if '0' ≤ c ∧ c ≤ '9' then c :: digitRun rest else []
  | [] => []

/-- Digit-class analogue of `matchBsDs` for the spec-side extractor. -/
def matchDigits (pat : List Char) (s : List Char) : Option (List Char) :=
  if leadsList pat s then
    let ds := digitRun (s.drop pat.length)
    if ds ≠ [] then some ds else none
  else none

/-- Digit-class analogue of `searchBsDs` for the spec-side extractor. -/
def searchDigits (pat : List Char) : List Char → Option (List Char)
  | [] => matchDigits pat []
  | c :: rest =>
    match matchDigits pat (c :: rest) with
    | some g => some g
    | none => searchDigits pat rest

/-- The digit-class extraction the specification describes
(`/<segment>/<digits>` with the run of decimal digits captured), modelled
from the spec to exhibit the divergence from the code. -/
def extract_id_spec (ref segment : String) : Option String :=
  if ref = "" ∨ segment = "" then none
  else
    let pat := ('/' :: segment.data) ++ ['/']
    (searchDigits pat ref.data).map String.mk

/-- `build_player_index`: the team ids collected from the season's team
reference list. -/
def build_player_index_team_ids (team_refs : List String) : List String :=
  team_refs.filterMap (fun ref => extract_id_from_ref ref "teams")

/-- `build_player_index.fetch_roster`: a roster fetch whose exception is
caught, logged and turned into an empty reference list. -/
def fetch_roster (roster : String → Except String (List String)) (team_id : String) :
    List String :=
  match roster team_id with
  | .ok refs => refs
  | .error _ => []

/-- One entry of the built athlete list. -/
structure AthleteEntry where
  id : Option String
  ref : String
  position : Option String
deriving DecidableEq, Repr

/-- The dedupe key of a normalized athlete reference:
`athlete_id or ref`. -/
def athlete_key (ref : String) : String :=
  (extract_id_from_ref ref "athletes").getD ref

/-- The inner loop over one roster's references: normalize, extract the
athlete id, dedupe on the key and append the new entries, threading the
seen-key set. -/
def add_refs : List String → List String → List AthleteEntry × List String
  | [], seen => ([], seen)
  | r :: rest, seen =>
    match normalize_core_ref r with
    | none => add_refs rest seen
    | some ref =>
      let key := athlete_key ref
      if key ∈ seen then add_refs rest seen
      else
        let result := add_refs rest (key :: seen)
        ({ id := extract_id_from_ref ref "athletes", ref := ref, position := none } :: result.1,
          result.2)

/-- The fan-out merge loop of `build_player_index`, processing completed
rosters in the given order (any completion order of the worker pool is
some such list). -/
def roster_fanout_go (roster : String → Except String (List String)) :
    List String → List String → List AthleteEntry
  | [], _ => []
  | tid :: rest, seen =>
    let result := add_refs (fetch_roster roster tid) seen
    result.1 ++ roster_fanout_go roster rest result.2

/-- The deduplicated athlete list produced by the team fan-out. -/
def roster_fanout (roster : String → Except String (List String))
    (team_ids : List String) : List AthleteEntry :=
  roster_fanout_go roster team_ids []

/-- The athlete list built by `build_player_index` (the final sort by
dedupe key permutes entries and is omitted here: the settled claims are
about emptiness and membership). -/
def build_player_index_athletes (team_refs : List String)
    (roster : String → Except String (List String)) : List AthleteEntry :=
  roster_fanout roster (build_player_index_team_ids team_refs)

/-- A roster oracle returning one athlete reference per team. -/
def rosterCex : String → Except String (List String) :=
  fun tid => .ok ["https://x/athletes/" ++ tid]

/-- C3 fails on the code: the raw-string pattern `/{segment}/(\\d+)`
matches a literal backslash followed by letter d characters, so no
numeric team or athlete id is ever extracted, no roster is fetched, and
the built athlete list is always empty, while the spec-side digit
extractor recovers the id. -/
theorem C3_extract_id_regex_bug :
    extract_id_from_ref "https://x/v2/sports/football/leagues/nfl/seasons/2024/teams/17"
      "teams" = none ∧
    extract_id_from_ref "https://x/athletes/4241479" "athletes" = none ∧
    extract_id_from_ref "https://x/teams/\\dd" "teams" = some "dd" ∧
    extract_id_spec "https://x/v2/sports/football/leagues/nfl/seasons/2024/teams/17"
      "teams" = some "17" ∧
    build_player_index_team_ids ["https://x/teams/17", "https://x/teams/18"] = [] ∧
    build_player_index_athletes ["https://x/teams/17", "https://x/teams/18"] rosterCex = [] := by
  refine ⟨by decide, by decide, by decide, by decide, by decide, by decide⟩

theorem fetch_roster_error {roster : String → Except String (List String)}
    {t : String} {msg : String} (ht : roster t = .error msg) :
    fetch_roster roster t = [] := by
  simp [fetch_roster, ht]

theorem roster_fanout_go_skip_error (roster : String → Except String (List String))
    (t : String) (msg : String) (ht : roster t = .error msg) :
    ∀ (ids : List String) (seen : List String),
      roster_fanout_go roster ids seen =
        roster_fanout_go roster (ids.filter (fun u => u ≠ t)) seen := by
  intro ids
  induction ids with
  | nil => intro seen; rfl
  | cons tid rest ih =>
    intro seen
    by_cases he : tid = t
    · rw [List.filter_cons_of_neg (by simp [he])]
      rw [show roster_fanout_go roster (tid :: rest) seen =
          (add_refs (fetch_roster roster tid) seen).1 ++
            roster_fanout_go roster rest (add_refs (fetch_roster roster tid) seen).2 from rfl]
      rw [he, fetch_roster_error ht]
      simp only [add_refs, List.nil_append]
      exact ih seen
    · rw [List.filter_cons_of_pos (by simp [he])]
      rw [show roster_fanout_go roster (tid :: rest) seen =
          (add_refs (fetch_roster roster tid) seen).1 ++
            roster_fanout_go roster rest (add_refs (fetch_roster roster tid) seen).2 from rfl]
      rw [show roster_fanout_go roster (tid :: List.filter (fun u => decide (u ≠ t)) rest) seen =
          (add_refs (fetch_roster roster tid) seen).1 ++
            roster_fanout_go roster (List.filter (fun u => decide (u ≠ t)) rest)
              (add_refs (fetch_roster roster tid) seen).2 from rfl]
      rw [ih]

theorem add_refs_sound :
    ∀ (refs seen : List String) (a : AthleteEntry),
      a ∈ (add_refs refs seen).1 →
      ∃ r ∈ refs, normalize_core_ref r = some a.ref := by
  intro refs
  induction refs with
  | nil =>
    intro seen a ha
    simp [add_refs] at ha
  | cons r rest ih =>
    intro seen a ha
    cases hn : normalize_core_ref r with
    | none =>
      simp only [add_refs, hn] at ha
      obtain ⟨r₁, hr₁, hnr₁⟩ := ih seen a ha
      exact ⟨r₁, List.mem_cons_of_mem r hr₁, hnr₁⟩
    | some ref =>
      simp only [add_refs, hn] at ha
      by_cases hk : athlete_key ref ∈ seen
      · rw [if_pos hk] at ha
        obtain ⟨r₁, hr₁, hnr₁⟩ := ih seen a ha
        exact ⟨r₁, List.mem_cons_of_mem r hr₁, hnr₁⟩
      · rw [if_neg hk] at ha
        rcases List.mem_cons.mp ha with hhead | htail
        · subst hhead
          exact ⟨r, List.mem_cons_self r rest, hn⟩
        · obtain ⟨r₁, hr₁, hnr₁⟩ := ih (athlete_key ref :: seen) a htail
          exact ⟨r₁, List.mem_cons_of_mem r hr₁, hnr₁⟩

theorem roster_fanout_go_sound (roster : String → Except String (List String)) :
    ∀ (ids seen : List String) (a : AthleteEntry),
      a ∈ roster_fanout_go roster ids seen →
      ∃ u ∈ ids, ∃ r ∈ fetch_roster roster u, normalize_core_ref r = some a.ref
  | [], _, a, ha => by simp [roster_fanout_go] at ha
  | tid :: rest, seen, a, ha => by
    simp only [roster_fanout_go, List.mem_append] at ha
    rcases ha with hfirst | hrest
    · obtain ⟨r, hr, hnr⟩ := add_refs_sound (fetch_roster roster tid) seen a hfirst
      exact ⟨tid, List.mem_cons_self tid rest, r, hr, hnr⟩
    · obtain ⟨u, hu, r, hr, hnr⟩ := roster_fanout_go_sound roster rest
        (add_refs (fetch_roster roster tid) seen).2 a hrest
      exact ⟨u, List.mem_cons_of_mem tid hu, r, hr, hnr⟩

theorem add_refs_seen_subset :
    ∀ (refs seen : List String) (k : String),
      k ∈ (add_refs refs seen).2 →
      k ∈ seen ∨ ∃ a ∈ (add_refs refs seen).1, athlete_key a.ref = k := by
  intro refs
  induction refs with
  | nil =>
    intro seen k hk
    simp only [add_refs] at hk
    exact Or.inl hk
  | cons r rest ih =>
    intro seen k hk
    cases hn : normalize_core_ref r with
    | none =>
      simp only [add_refs, hn] at hk ⊢
      exact ih seen k hk
    | some ref =>
      simp only [add_refs, hn] at hk ⊢
      by_cases hmem : athlete_key ref ∈ seen
      · rw [if_pos hmem] at hk ⊢
        exact ih seen k hk
      · rw [if_neg hmem] at hk ⊢
        rcases ih (athlete_key ref :: seen) k hk with hin | ⟨a, ha, hka⟩
        · rcases List.mem_cons.mp hin with hkey | hseen
          · subst hkey
            exact Or.inr ⟨_, List.mem_cons_self _ _, rfl⟩
          · exact Or.inl hseen
        · exact Or.inr ⟨a, List.mem_cons_of_mem _ ha, hka⟩

theorem add_refs_complete :
    ∀ (refs seen : List String) (ref : String),
      (∃ r ∈ refs, normalize_core_ref r = some ref) →
      athlete_key ref ∉ seen →
      ∃ a ∈ (add_refs refs seen).1, athlete_key a.ref = athlete_key ref := by
  intro refs
  induction refs with
  | nil =>
    intro seen ref hex hns
    obtain ⟨r, hr, _⟩ := hex
    exact absurd hr (List.not_mem_nil r)
  | cons r rest ih =>
    intro seen ref hex hns
    obtain ⟨r₀, hr₀, hnr₀⟩ := hex
    cases hn : normalize_core_ref r with
    | none =>
      simp only [add_refs, hn]
      have hr₀rest : r₀ ∈ rest := by
        rcases List.mem_cons.mp hr₀ with he | htail
        · subst he
          rw [hn] at hnr₀
          cases hnr₀
        · exact htail
      exact ih seen ref ⟨r₀, hr₀rest, hnr₀⟩ hns
    | some ref₁ =>
      simp only [add_refs, hn]
      by_cases hmem : athlete_key ref₁ ∈ seen
      · rw [if_pos hmem]
        have hr₀rest : r₀ ∈ rest := by
          rcases List.mem_cons.mp hr₀ with he | htail
          · subst he
            rw [hn] at hnr₀
            cases hnr₀
            exact absurd hmem hns
          · exact htail
        exact ih seen ref ⟨r₀, hr₀rest, hnr₀⟩ hns
      · rw [if_neg hmem]
        by_cases hkey : athlete_key ref = athlete_key ref₁
        · exact ⟨_, List.mem_cons_self _ _, hkey.symm⟩
        · have hr₀rest : r₀ ∈ rest := by
            rcases List.mem_cons.mp hr₀ with he | htail
            · subst he
              rw [hn] at hnr₀
              cases hnr₀
              exact absurd rfl hkey
            · exact htail
          have hns₁ : athlete_key ref ∉ athlete_key ref₁ :: seen := by
            intro hin
            rcases List.mem_cons.mp hin with he | hseen
            · exact hkey he
            · exact hns hseen
          obtain ⟨a, ha, hka⟩ := ih (athlete_key ref₁ :: seen) ref ⟨r₀, hr₀rest, hnr₀⟩ hns₁
          exact ⟨a, List.mem_cons_of_mem _ ha, hka⟩

theorem roster_fanout_go_complete (roster : String → Except String (List String)) :
    ∀ (ids seen : List String) (u : String), u ∈ ids →
      ∀ (ref : String), (∃ r ∈ fetch_roster roster u, normalize_core_ref r = some ref) →
      athlete_key ref ∉ seen →
      ∃ a ∈ roster_fanout_go roster ids seen, athlete_key a.ref = athlete_key ref
  | [], _, u, hu, _, _, _ => absurd hu (List.not_mem_nil u)
  | tid :: rest, seen, u, hu, ref, hex, hns => by
    simp only [roster_fanout_go, List.mem_append]
    rcases List.mem_cons.mp hu with he | htail
    · subst he
      obtain ⟨a, ha, hka⟩ := add_refs_complete (fetch_roster roster u) seen ref hex hns
      exact ⟨a, Or.inl ha, hka⟩
    · by_cases hseen : athlete_key ref ∈ (add_refs (fetch_roster roster tid) seen).2
      · rcases add_refs_seen_subset (fetch_roster roster tid) seen (athlete_key ref) hseen with
          hold | ⟨a, ha, hka⟩
        · exact absurd hold hns
        · exact ⟨a, Or.inl ha, hka⟩
      · obtain ⟨a, ha, hka⟩ := roster_fanout_go_complete roster rest
          (add_refs (fetch_roster roster tid) seen).2 u htail ref hex hseen
        exact ⟨a, Or.inr ha, hka⟩

/-- C8: when exactly one team's roster fetch raises, the fan-out
completes (the exception is caught inside fetch_roster, which is total
here by construction) and the resulting athlete list is exactly the one
built from the remaining teams: it equals the fan-out with the failing
team removed, every entry comes from a successful team's roster, and
every normalized roster reference of a successful team is represented
under its dedupe key. -/
theorem C8_partial_failure (roster : String → Except String (List String))
    (team_ids : List String) (t : String) (msg : String)
    (ht : roster t = .error msg) :
    roster_fanout roster team_ids =
      roster_fanout roster (team_ids.filter (fun u => u ≠ t)) ∧
    (∀ a ∈ roster_fanout roster team_ids,
      ∃ u ∈ team_ids, u ≠ t ∧
        ∃ r ∈ fetch_roster roster u, normalize_core_ref r = some a.ref) ∧
    (∀ u ∈ team_ids, u ≠ t →
      ∀ r ∈ fetch_roster roster u, ∀ ref, normalize_core_ref r = some ref →
        ∃ a ∈ roster_fanout roster team_ids, athlete_key a.ref = athlete_key ref) := by
  refine ⟨roster_fanout_go_skip_error roster t msg ht team_ids [], ?_, ?_⟩
  · intro a ha
    obtain ⟨u, hu, r, hr, hnr⟩ := roster_fanout_go_sound roster team_ids [] a ha
    refine ⟨u, hu, ?_, r, hr, hnr⟩
    intro he
    subst he
    rw [fetch_roster_error ht] at hr
    exact absurd hr (List.not_mem_nil r)
  · intro u hu _ r hr ref hnr
    exact roster_fanout_go_complete roster team_ids [] u hu ref ⟨r, hr, hnr⟩
      (List.not_mem_nil _)

/-- A roster oracle for the C8 witness: team t2 fails, the others return
one athlete reference each. -/
def rosterW : String → Except String (List String) :=
  fun tid =>
    if tid = "t2" then .error "boom"
    else .ok ["https://x/" ++ tid ++ "/a"]

/-- Witness for C8: with three teams of which exactly t2 fails, the
fan-out equals the fan-out over the two surviving teams. -/
theorem C8_partial_failure_witness :
    roster_fanout rosterW ["t1", "t2", "t3"] =
      roster_fanout rosterW (["t1", "t2", "t3"].filter (fun u => u ≠ "t2")) :=
  (C8_partial_failure rosterW ["t1", "t2", "t3"] "t2" "boom" rfl).1

/-! ## Crash-safe snapshot persistence
(service.py: GameCache._save lines 294-299 and _load lines 283-292; the
same pattern is used verbatim by TeamCache and StandingsCache) -/

/-- The on-disk state relevant to one cache path: the contents of
`cache_path` and of `cache_path + ".tmp"` (absent files are `none`). -/
structure FS where
  main : Option String
  tmp : Option String
deriving DecidableEq, Repr

/-- The micro-steps of `_save`: opening the temp file for writing
truncates it, each write appends a chunk of the serialized payload, and
`os.replace` atomically moves the temp file over the cache path. -/
inductive SaveStep where
  | openTrunc
  | writeChunk (s : String)
  | renameOver
deriving DecidableEq, Repr

/-- Effect of one micro-step on the file-system state. -/
def fs_step (fs : FS) : SaveStep → FS
  | .openTrunc => { fs with tmp := some "" }
  | .writeChunk s => { fs with tmp := some ((fs.tmp.getD "") ++ s) }
  | .renameOver => { main := fs.tmp, tmp := none }

/-- Run a sequence of micro-steps. -/
def run_steps (fs : FS) (steps : List SaveStep) : FS :=
  steps.foldl fs_step fs

/-- The step sequence of one `_save(payload)` call, with the serialized
payload written as the given chunks. -/
def save_steps (chunks : List String) : List SaveStep :=
  .openTrunc :: chunks.map .writeChunk ++ [.renameOver]

/-- Concatenation of the written chunks: the full serialized payload. -/
def joinChunks : List String → String
  | [] => ""
  | s :: rest => s ++ joinChunks rest

/-- `_load` reads the cache path only. -/
def load (fs : FS) : Option String := fs.main

theorem run_steps_main_of_no_rename :
    ∀ (steps : List SaveStep) (fs : FS), SaveStep.renameOver ∉ steps →
      (run_steps fs steps).main = fs.main := by
  intro steps
  induction steps with
  | nil => intro fs _; rfl
  | cons st rest ih =>
    intro fs hnr
    have hst : st ≠ SaveStep.renameOver := by
      intro he
      exact hnr (he ▸ List.mem_cons_self st rest)
    have hmain : (fs_step fs st).main = fs.main := by
      cases st with
      | openTrunc => rfl
      | writeChunk s => rfl
      | renameOver => exact absurd rfl hst
    calc (run_steps fs (st :: rest)).main
        = (run_steps (fs_step fs st) rest).main := rfl
      _ = (fs_step fs st).main := ih (fs_step fs st) (fun h => hnr (List.mem_cons_of_mem st h))
      _ = fs.main := hmain

theorem run_steps_writes :
    ∀ (cs : List String) (m : Option String) (acc : String),
      run_steps ⟨m, some acc⟩ (cs.map SaveStep.writeChunk) = ⟨m, some (acc ++ joinChunks cs)⟩ := by
  intro cs
  induction cs with
  | nil =>
    intro m acc
    simp [run_steps, joinChunks]
  | cons c rest ih =>
    intro m acc
    have h1 : run_steps ⟨m, some acc⟩ ((c :: rest).map SaveStep.writeChunk) =
        run_steps ⟨m, some (acc ++ c)⟩ (rest.map SaveStep.writeChunk) := rfl
    rw [h1, ih, String.append_assoc]
    rfl

theorem run_steps_save (fs : FS) (chunks : List String) :
    run_steps fs (save_steps chunks) = ⟨some (joinChunks chunks), none⟩ := by
  have hsplit : run_steps fs (save_steps chunks) =
      run_steps (run_steps ⟨fs.main, some ""⟩ (chunks.map SaveStep.writeChunk))
        [SaveStep.renameOver] := by
    simp only [save_steps, run_steps, List.foldl_cons, List.foldl_append]
    rfl
  rw [hsplit, run_steps_writes]
  rfl

/-- C9: a persist writes the whole payload into the temp file and then
atomically renames it over the cache path, so a crash at any step prior
to the rename leaves the previously persisted snapshot intact
byte-for-byte, the completed save installs the complete new payload, and
a load at any intermediate point observes either the complete prior
snapshot or the complete new payload, never a mixture. -/
theorem C9_atomic_snapshot_persist (fs : FS) (chunks : List String) :
    (∀ p : List SaveStep, p <+: save_steps chunks → SaveStep.renameOver ∉ p →
      load (run_steps fs p) = load fs) ∧
    load (run_steps fs (save_steps chunks)) = some (joinChunks chunks) ∧
    (∀ p : List SaveStep, p <+: save_steps chunks →
      load (run_steps fs p) = load fs ∨
        load (run_steps fs p) = some (joinChunks chunks)) := by
  refine ⟨?_, ?_, ?_⟩
  · intro p _ hnr
    exact run_steps_main_of_no_rename p fs hnr
  · rw [run_steps_save]
    rfl
  · intro p hp
    have hform : save_steps chunks =
        (SaveStep.openTrunc :: chunks.map SaveStep.writeChunk) ++ [SaveStep.renameOver] := rfl
    have hp₁ := List.prefix_concat_iff.mp (hform ▸ hp)
    rcases hp₁ with hfull | hpre
    · right
      have hps : p = save_steps chunks := hfull
      rw [hps, run_steps_save]
      rfl
    · left
      refine run_steps_main_of_no_rename p fs ?_
      intro hmem
      have hmem₂ := hpre.sublist.subset hmem
      rcases List.mem_cons.mp hmem₂ with he | hw
      · cases he
      · obtain ⟨s, _, hs⟩ := List.mem_map.mp hw
        cases hs

/-- Witness for C9: a concrete two-chunk save over a prior snapshot; the
crash point after the first write still loads the old payload, and the
completed save loads the new one. -/
theorem C9_atomic_snapshot_persist_witness :
    load (run_steps ⟨some "old", none⟩
        [SaveStep.openTrunc, SaveStep.writeChunk "ne"]) = load ⟨some "old", none⟩ ∧
    load (run_steps ⟨some "old", none⟩ (save_steps ["ne", "w"])) = some (joinChunks ["ne", "w"]) := by
  constructor
  · exact (C9_atomic_snapshot_persist ⟨some "old", none⟩ ["ne", "w"]).1
      [SaveStep.openTrunc, SaveStep.writeChunk "ne"]
      ⟨[SaveStep.writeChunk "w", SaveStep.renameOver], rfl⟩ (by decide)
  · exact (C9_atomic_snapshot_persist ⟨some "old", none⟩ ["ne", "w"]).2.1

/-! ## HTTP response envelopes
(service.py: RequestHandler.do_GET lines 2232-2700; each builder below
embeds the dictionary literal of one route's 200 response, with
sub-payloads the claims do not inspect abstracted as opaque values) -/

/-- A JSON value. -/
inductive JVal where
  | jnull
  | jbool (b : Bool)
  | jint (n : Int)
  | jstr (s : String)
  | jarr (items : List JVal)
  | jobj (fields : List (String × JVal))

/-- Lookup of a key in an object's field list (first match). -/
def lookup_field : List (String × JVal) → String → Option JVal
  | [], _ => none
  | (k, v) :: rest, key => if k = key then some v else lookup_field rest key

/-- Field access on a JSON value. -/
def getField (v : JVal) (k : String) : Option JVal :=
  match v with
  | .jobj fields => lookup_field fields k
  | _ => none

/-- Python dict assignment `d[k] = v`: replace in place or append. -/
def set_field : List (String × JVal) → String → JVal → List (String × JVal)
  | [], k, v => [(k, v)]
  | (k₁, v₁) :: rest, k, v =>
    if k₁ = k then (k, v) :: rest else (k₁, v₁) :: set_field rest k v

/-- An optional string rendered as JSON (None becomes null). -/
def optStr : Option String → JVal
  | none => .jnull
  | some s => .jstr s

/-- The 200 response of the health route: top-level cacheAgeSec, no meta
object, no stale flag. -/
def health_payload (cacheAge lastFetch : Int) (lastError lastSource : Option String) : JVal :=
  .jobj [("status", .jstr "ok"), ("cacheAgeSec", .jint cacheAge),
         ("lastFetch", .jint lastFetch), ("lastError", optStr lastError),
         ("upstreamBase", optStr lastSource)]

/-- The 200 response of the teams route for league all. -/
def teams_all_payload (teams : List JVal) (cacheAge : Int) (stale : Bool) : JVal :=
  .jobj [("teams", .jarr teams),
         ("meta", .jobj [("count", .jint teams.length), ("league", .jstr "all"),
                         ("cacheAgeSec", .jint cacheAge), ("stale", .jbool stale)])]

/-- The 200 response of the teams route for a single league. -/
def teams_payload (teams : List JVal) (league : String) (cacheAge : Int) (stale : Bool)
    (upstreamBase : Option String) : JVal :=
  .jobj [("teams", .jarr teams),
         ("meta", .jobj [("count", .jint teams.length), ("league", .jstr league),
                         ("cacheAgeSec", .jint cacheAge), ("stale", .jbool stale),
                         ("upstreamBase", optStr upstreamBase)])]

/-- The 200 response of the stats route: its meta holds only the ESPN
summary's own meta blob and the requested date — no cacheAgeSec, no
stale.  The untouched summary fields are read through the `summary`
accessor. -/
def stats_payload (eventId : JVal) (league : String) (summary : String → JVal)
    (winProbability summaryMeta dateVal : JVal) : JVal :=
  .jobj [("eventId", eventId), ("league", .jstr league), ("header", summary "header"),
         ("boxscore", summary "boxscore"), ("leaders", summary "leaders"),
         ("injuries", summary "injuries"), ("broadcasts", summary "broadcasts"),
         ("gameInfo", summary "gameInfo"), ("notes", summary "notes"),
         ("standings", summary "standings"), ("drives", summary "drives"),
         ("plays", summary "plays"), ("scoringPlays", summary "scoringPlays"),
         ("winProbability", winProbability), ("probability", summary "probability"),
         ("odds", summary "odds"),
         ("meta", .jobj [("source", summaryMeta), ("date", dateVal)])]

/-- The meta object of the players route: source, cacheAgeSec (the
index age with the or-0 default already applied) and fromCache — and no
stale field. -/
def players_meta (source : JVal) (indexAge : Int) (fromCache : Bool) : List (String × JVal) :=
  [("source", source), ("cacheAgeSec", .jint indexAge), ("fromCache", .jbool fromCache)]

/-- The 200 response of the players route. -/
def players_payload (league : String) (season view mode position : JVal)
    (page perPage total : Int) (columns rows : List JVal) (source : JVal)
    (indexAge : Int) (fromCache : Bool) : JVal :=
  .jobj [("league", .jstr league), ("season", season), ("view", view), ("mode", mode),
         ("position", position), ("page", .jint page), ("perPage", .jint perPage),
         ("total", .jint total),
         ("table", .jobj [("columns", .jarr columns), ("rows", .jarr rows)]),
         ("meta", .jobj (players_meta source indexAge fromCache))]

/-- The meta object built by fetch_player_leaders. -/
def leaders_meta (url : Option String) : List (String × JVal) :=
  [("source", optStr url), ("cacheAgeSec", .jint 0), ("stale", .jbool false),
   ("fromCache", .jbool false)]

/-- The 200 response of the leaders route. -/
def leaders_payload (league : String) (season seasonType : JVal) (limit : Int) (mode : JVal)
    (categories : List JVal) (table : JVal) (url : Option String) : JVal :=
  .jobj [("league", .jstr league), ("season", season), ("seasonType", seasonType),
         ("limit", .jint limit), ("mode", mode), ("categories", .jarr categories),
         ("table", table), ("meta", .jobj (leaders_meta url))]

/-- The meta mutation both cache-hit paths perform before replying
(get_cached_player_leaders and the players page-cache branch):
cacheAgeSec is set to the entry age and fromCache to true. -/
def cached_meta_update (fields : List (String × JVal)) (age : Int) : List (String × JVal) :=
  set_field (set_field fields "cacheAgeSec" (.jint age)) "fromCache" (.jbool true)

/-- The 200 response of the standings route for league all. -/
def standings_all_payload (standings : List JVal) (season : JVal) (cacheAge : Int)
    (stale : Bool) : JVal :=
  .jobj [("standings", .jarr standings),
         ("meta", .jobj [("count", .jint standings.length), ("league", .jstr "all"),
                         ("season", season), ("cacheAgeSec", .jint cacheAge),
                         ("stale", .jbool stale)])]

/-- The 200 response of the standings route for a single league. -/
def standings_payload (standings : JVal) (league : String) (season : JVal) (cacheAge : Int)
    (stale : Bool) (upstreamBase : Option String) : JVal :=
  .jobj [("standings", standings),
         ("meta", .jobj [("league", .jstr league), ("season", season),
                         ("cacheAgeSec", .jint cacheAge), ("stale", .jbool stale),
                         ("upstreamBase", optStr upstreamBase)])]

/-- The 200 response of the games list route. -/
def games_payload (games : List JVal) (filterValue league : String) (cacheAge : Int)
    (stale : Bool) (upstreamBase : Option String) : JVal :=
  .jobj [("games", .jarr games),
         ("meta", .jobj [("count", .jint games.length), ("filter", .jstr filterValue),
                         ("league", .jstr league), ("cacheAgeSec", .jint cacheAge),
                         ("stale", .jbool stale), ("upstreamBase", optStr upstreamBase)])]

/-- The 200 response of the game-by-slug route. -/
def game_payload (game : JVal) (cacheAge : Int) (stale : Bool) (upstreamBase : Option String)
    (league : String) : JVal :=
  .jobj [("game", game),
         ("meta", .jobj [("cacheAgeSec", .jint cacheAge), ("stale", .jbool stale),
                         ("upstreamBase", optStr upstreamBase), ("league", .jstr league)])]

/-- The 200 response of the stream-check route: no meta object. -/
def streams_check_payload (slug source : String) (stream : Int) (health : JVal) : JVal :=
  .jobj [("slug", .jstr slug), ("source", .jstr source), ("stream", .jint stream),
         ("health", health)]

/-- A payload whose meta object carries an integer cacheAgeSec and a
boolean stale. -/
def meta_has_age_stale (payload : JVal) : Prop :=
  ∃ (fields : List (String × JVal)) (age : Int) (stale : Bool),
    getField payload "meta" = some (.jobj fields) ∧
    lookup_field fields "cacheAgeSec" = some (.jint age) ∧
    lookup_field fields "stale" = some (.jbool stale)

theorem lookup_set_field_self (fields : List (String × JVal)) (k : String) (v : JVal) :
    lookup_field (set_field fields k v) k = some v := by
  induction fields with
  | nil => simp [set_field, lookup_field]
  | cons f rest ih =>
    obtain ⟨k₁, v₁⟩ := f
    by_cases h : k₁ = k
    · simp [set_field, h, lookup_field]
    · simp [set_field, h, lookup_field, ih]

theorem lookup_set_field_other (fields : List (String × JVal)) (k : String) (v : JVal)
    (key : String) (h : k ≠ key) :
    lookup_field (set_field fields k v) key = lookup_field fields key := by
  induction fields with
  | nil => simp [set_field, lookup_field, h]
  | cons f rest ih =>
    obtain ⟨k₁, v₁⟩ := f
    by_cases h₁ : k₁ = k
    · subst h₁
      simp [set_field, lookup_field, h]
    · simp [set_field, h₁, lookup_field, ih]

/-- The claim as stated is false on the code: the health route's envelope
has no meta object at all, the stats route's meta has neither cacheAgeSec
nor stale, and the players route's meta has no stale field. -/
theorem C2_meta_envelope_counterexample :
    getField (health_payload 5 100 none (some "base")) "meta" = none ∧
    getField (stats_payload .jnull "nfl" (fun _ => .jnull) .jnull .jnull .jnull) "meta" =
      some (.jobj [("source", .jnull), ("date", .jnull)]) ∧
    lookup_field [("source", JVal.jnull), ("date", JVal.jnull)] "cacheAgeSec" = none ∧
    lookup_field [("source", JVal.jnull), ("date", JVal.jnull)] "stale" = none ∧
    getField (players_payload "nfl" .jnull .jnull .jnull .jnull 1 50 0 [] [] .jnull 0 false)
      "meta" = some (.jobj (players_meta .jnull 0 false)) ∧
    lookup_field (players_meta .jnull 0 false) "stale" = none := by
  exact ⟨rfl, rfl, rfl, rfl, rfl, rfl⟩

/-- C2 (amended): the 200 envelopes of the teams, standings, games,
game-by-slug and leaders routes carry a meta object with an integer
cacheAgeSec and a boolean stale; the players and leaders envelopes carry
fromCache in their meta; the cache-hit meta mutation installs the entry
age and fromCache true while leaving any stale field unchanged; the
health envelope exposes cacheAgeSec at top level without a meta object;
the stats meta holds only source and date; the stream-check envelope has
no meta. -/
theorem C2_meta_envelope :
    (∀ (teams : List JVal) (cacheAge : Int) (stale : Bool),
      meta_has_age_stale (teams_all_payload teams cacheAge stale)) ∧
    (∀ (teams : List JVal) (league : String) (cacheAge : Int) (stale : Bool)
        (upstreamBase : Option String),
      meta_has_age_stale (teams_payload teams league cacheAge stale upstreamBase)) ∧
    (∀ (standings : List JVal) (season : JVal) (cacheAge : Int) (stale : Bool),
      meta_has_age_stale (standings_all_payload standings season cacheAge stale)) ∧
    (∀ (standings : JVal) (league : String) (season : JVal) (cacheAge : Int) (stale : Bool)
        (upstreamBase : Option String),
      meta_has_age_stale (standings_payload standings league season cacheAge stale upstreamBase)) ∧
    (∀ (games : List JVal) (filterValue league : String) (cacheAge : Int) (stale : Bool)
        (upstreamBase : Option String),
      meta_has_age_stale (games_payload games filterValue league cacheAge stale upstreamBase)) ∧
    (∀ (game : JVal) (cacheAge : Int) (stale : Bool) (upstreamBase : Option String)
        (league : String),
      meta_has_age_stale (game_payload game cacheAge stale upstreamBase league)) ∧
    (∀ (league : String) (season seasonType : JVal) (limit : Int) (mode : JVal)
        (categories : List JVal) (table : JVal) (url : Option String),
      meta_has_age_stale (leaders_payload league season seasonType limit mode categories
        table url) ∧
      lookup_field (leaders_meta url) "fromCache" = some (.jbool false)) ∧
    (∀ (league : String) (season view mode position : JVal) (page perPage total : Int)
        (columns rows : List JVal) (source : JVal) (indexAge : Int) (fromCache : Bool),
      getField (players_payload league season view mode position page perPage total columns
          rows source indexAge fromCache) "meta" =
        some (.jobj (players_meta source indexAge fromCache)) ∧
      lookup_field (players_meta source indexAge fromCache) "cacheAgeSec" =
        some (.jint indexAge) ∧
      lookup_field (players_meta source indexAge fromCache) "fromCache" =
        some (.jbool fromCache)) ∧
    (∀ (fields : List (String × JVal)) (age : Int),
      lookup_field (cached_meta_update fields age) "cacheAgeSec" = some (.jint age) ∧
      lookup_field (cached_meta_update fields age) "fromCache" = some (.jbool true) ∧
      lookup_field (cached_meta_update fields age) "stale" = lookup_field fields "stale") ∧
    (∀ (cacheAge lastFetch : Int) (lastError lastSource : Option String),
      getField (health_payload cacheAge lastFetch lastError lastSource) "meta" = none ∧
      lookup_field [("status", JVal.jstr "ok"), ("cacheAgeSec", JVal.jint cacheAge),
          ("lastFetch", JVal.jint lastFetch), ("lastError", optStr lastError),
          ("upstreamBase", optStr lastSource)] "cacheAgeSec" = some (.jint cacheAge)) ∧
    (∀ (slug source : String) (stream : Int) (health : JVal),
      getField (streams_check_payload slug source stream health) "meta" = none) := by
  refine ⟨?_, ?_, ?_, ?_, ?_, ?_, ?_, ?_, ?_, ?_, ?_⟩
  · intro teams cacheAge stale
    exact ⟨_, cacheAge, stale, rfl, rfl, rfl⟩
  · intro teams league cacheAge stale upstreamBase
    exact ⟨_, cacheAge, stale, rfl, rfl, rfl⟩
  · intro standings season cacheAge stale
    exact ⟨_, cacheAge, stale, rfl, rfl, rfl⟩
  · intro standings league season cacheAge stale upstreamBase
    exact ⟨_, cacheAge, stale, rfl, rfl, rfl⟩
  · intro games filterValue league cacheAge stale upstreamBase
    exact ⟨_, cacheAge, stale, rfl, rfl, rfl⟩
  · intro game cacheAge stale upstreamBase league
    exact ⟨_, cacheAge, stale, rfl, rfl, rfl⟩
  · intro league season seasonType limit mode categories table url
    exact ⟨⟨_, 0, false, rfl, rfl, rfl⟩, rfl⟩
  · intro league season view mode position page perPage total columns rows source indexAge
      fromCache
    exact ⟨rfl, rfl, rfl⟩
  · intro fields age
    refine ⟨?_, ?_, ?_⟩
    · rw [cached_meta_update, lookup_set_field_other _ _ _ _ (by decide),
        lookup_set_field_self]
    · rw [cached_meta_update, lookup_set_field_self]
    · rw [cached_meta_update, lookup_set_field_other _ _ _ _ (by decide),
        lookup_set_field_other _ _ _ _ (by decide)]
  · intro cacheAge lastFetch lastError lastSource
    exact ⟨rfl, rfl⟩
  · intro slug source stream health
    exact rfl

end NFLViewer
